import Mathlib

/-!
Shallow embedding of the `jz` income-tracking ledger (Rust sources
`src/main.rs` and `src/db.rs`) and proofs about its specification.

Monetary amounts (Rust `f64`) are modelled as rationals `ℚ`; machine
time instants (`std::time::Instant`) as natural numbers of seconds;
fallible database calls as `Except`/`Option` values, where `Option.none`
on a read models a panic (`unwrap` on a failed call).
-/

namespace Jz

/-- Mirror of `db::Record` (db.rs lines 4-13); `income : f64` is modelled
as `ℚ`, `duration : Option<f64>` as `Option ℚ`. -/
structure RecordQ where
  id : Int
  date : String
  boss : String
  income : ℚ
  duration : Option ℚ
  game : Option String
  settled : Bool
deriving DecidableEq, Repr

/-! ### Aggregation: the running-balance loop (main.rs 1119-1126) -/

/-- The running-balance loop of `App::update` (main.rs lines 1123-1126):
each record pushes the current `remaining` and then subtracts its own
income. -/
def runningBalancesAux : List RecordQ → ℚ → List ℚ
  | [], _ => []
  | r :: rest, remaining => remaining :: runningBalancesAux rest (remaining - r.income)

/-- `running_balances` as computed in main.rs lines 1120-1126: `remaining`
starts at the total of the filtered records, then the subtracting loop
runs. -/
def runningBalances (rs : List RecordQ) : List ℚ :=
  runningBalancesAux rs ((rs.map RecordQ.income).sum)

/-- The spec's words for the running-balance sequence: at index `i`, that
record's amount plus all amounts at indices greater than `i` (a suffix
sum). -/
def suffixSums (rs : List RecordQ) : List ℚ :=
  (List.range rs.length).map (fun i => ((rs.drop i).map RecordQ.income).sum)

/-- Sample records in canonical order (date desc, id desc) with amounts
30, 20, 10 — the spec's running-balance example. -/
def recA : RecordQ := ⟨3, "2024-03-03", "A", 30, none, none, false⟩

def recB : RecordQ := ⟨2, "2024-03-02", "B", 20, none, none, false⟩

def recC : RecordQ := ⟨1, "2024-03-01", "C", 10, none, none, false⟩

/-- A store state the schema admits: `boss` is `TEXT NOT NULL`, which
still allows the empty string. -/
def recEmptyBoss : RecordQ := ⟨1, "2024-01-01", "", 10, none, none, false⟩

/-! ### Text helpers: Rust `str::trim` and `f64::from_str` -/

/-- Rust `str::trim`: drop whitespace from both ends. -/
def rustTrim (s : String) : String :=
  String.mk (((s.toList.dropWhile Char.isWhitespace).reverse.dropWhile Char.isWhitespace).reverse)

/-- Value of a digit string, most significant first. -/
def digitsToNat (l : List Char) : Nat :=
  l.foldl (fun n c => n * 10 + (c.toNat - '0'.toNat)) 0

/-- Exponent part of Rust's float grammar (`e`/`E` already consumed):
optional sign, then at least one digit and nothing else. -/
def parseExpPart (sign mant : ℚ) (cs : List Char) : Option ℚ :=
  let (esign, cs2) : Int × List Char :=
    match cs with
    | '+' :: r => (1, r)
    | '-' :: r => (-1, r)
    | _ => (1, cs)
  let eds := cs2.takeWhile Char.isDigit
  let rest := cs2.dropWhile Char.isDigit
  if eds.isEmpty || !rest.isEmpty then none
  else some (sign * mant * (10 : ℚ) ^ (esign * (digitsToNat eds : Int)))

/-- Model of Rust `f64::from_str` over exact rationals: optional sign,
digits with optional fraction and optional exponent. The non-finite
spellings (`inf`, `infinity`, `nan`) are mapped to `none`; every caller
in main.rs rejects non-finite values, so this coincides with the code's
behaviour at each call site. -/
def parseDecimal (s : String) : Option ℚ :=
  let cs0 := s.toList
  let (sign, cs) : ℚ × List Char :=
    match cs0 with
    | '+' :: r => (1, r)
    | '-' :: r => (-1, r)
    | _ => (1, cs0)
  let intDs := cs.takeWhile Char.isDigit
  let afterInt := cs.dropWhile Char.isDigit
  match afterInt with
  | [] => if intDs.isEmpty then none else some (sign * (digitsToNat intDs : ℚ))
  | '.' :: rest =>
    let fracDs := rest.takeWhile Char.isDigit
    let afterFrac := rest.dropWhile Char.isDigit
    if intDs.isEmpty && fracDs.isEmpty then none
    else
      let mant : ℚ := (digitsToNat intDs : ℚ) + (digitsToNat fracDs : ℚ) / ((10 : ℚ) ^ fracDs.length)
      match afterFrac with
      | [] => some (sign * mant)
      | 'e' :: er => parseExpPart sign mant er
      | 'E' :: er => parseExpPart sign mant er
      | _ => none
  | 'e' :: er => if intDs.isEmpty then none else parseExpPart sign (digitsToNat intDs : ℚ) er
  | 'E' :: er => if intDs.isEmpty then none else parseExpPart sign (digitsToNat intDs : ℚ) er
  | _ => none

/-! ### Validation pipeline: `App::add_record` (main.rs 279-356) -/

/-- One-decimal rounding of an accepted duration (main.rs line 324):
`(v * 10.0).round() / 10.0`; Rust `round` is half-away-from-zero, which
for the positive values accepted here agrees with `round` on `ℚ`. -/
def round1 (v : ℚ) : ℚ :=
  ((round (v * 10) : Int) : ℚ) / 10

def msgBothMissing : String := "请输入老板名称和收入金额"

def msgBossMissing : String := "请输入老板名称"

def msgAmountInvalid : String := "请输入有效金额"

/-- `format!("单笔金额不能超过 ¥{:.0}", 100000.0)` from main.rs line 315. -/
def msgOverCeiling : String := "单笔金额不能超过 ¥100000"

def msgDurationInvalid : String := "请输入有效时长"

/-- `boss_empty` of main.rs line 287: `input_boss.trim().is_empty()`. -/
def bossEmptyOf (boss : String) : Bool :=
  rustTrim boss == ""

/-- `income_invalid` of main.rs lines 288-290: parse failure, or a parsed
value that is `≤ 0` or non-finite (non-finite parses are `none` in this
model). -/
def incomeInvalidOf (income : String) : Bool :=
  match parseDecimal (rustTrim income) with
  | some v => decide (v ≤ 0)
  | none => true

/-- Duration block of main.rs lines 320-330: blank means absent; a
non-blank input must parse to a finite positive value and is rounded to
one decimal; otherwise the submission fails with `msgDurationInvalid`. -/
def parseDuration (s : String) : Except String (Option ℚ) :=
  if rustTrim s == "" then .ok none
  else
    match parseDecimal (rustTrim s) with
    | some v => if 0 < v then .ok (some (round1 v)) else .error msgDurationInvalid
    | none => .error msgDurationInvalid

/-- Result of one `App::add_record` call: either a rejection carrying the
two per-field error flags and the message shown, or the normalized draft
record handed to the store. -/
inductive AddResult
  | rejected (bossError : Bool) (incomeError : Bool) (message : String)
  | added (record : RecordQ)
deriving DecidableEq, Repr

/-- `App::add_record` validation and normalization (main.rs 279-340): both
required-field checks run before the first early return; the ceiling check
runs next; then the duration block; the draft record's id is assigned by
the store, so it is 0 here. -/
def validateAdd (boss income duration game : String) (settled : Bool) (date : String) : AddResult :=
  if bossEmptyOf boss || incomeInvalidOf income then
    .rejected (bossEmptyOf boss) (incomeInvalidOf income)
      (if bossEmptyOf boss && incomeInvalidOf income then msgBothMissing
       else if bossEmptyOf boss then msgBossMissing
       else msgAmountInvalid)
  else
    if 100000 < (parseDecimal (rustTrim income)).getD 0 then
      .rejected false true msgOverCeiling
    else
      match parseDuration duration with
      | .error m => .rejected false false m
      | .ok dur =>
          .added { id := 0, date := date, boss := rustTrim boss,
                   income := (parseDecimal (rustTrim income)).getD 0,
                   duration := dur,
                   game := if rustTrim game == "" then none else some (rustTrim game),
                   settled := settled }

/-! ### Money formatting: `format_money` (main.rs 382-395) -/

/-- Two-decimal rendering, Rust `{:.2}`, of a nonnegative amount. Rust
rounds the exact binary value to the nearest 2-decimal string; this model
rounds the exact rational (ties upward — every amount the claims touch is
an exact 2-decimal value, so no tie is exercised). -/
def fmt2 (q : ℚ) : String :=
  Nat.repr ((round (q * 100)).toNat / 100) ++ "."
    ++ (if (round (q * 100)).toNat % 100 < 10 then "0" else "")
    ++ Nat.repr ((round (q * 100)).toNat % 100)

/-- `let sign = if amount < 0.0 { "-" } else { "" }` (main.rs line 384). -/
def signStr (amount : ℚ) : String :=
  if amount < 0 then "-" else ""

/-- `format_money` (main.rs lines 382-395): hundred-million unit above
`1e8`, ten-thousand unit above `1e5`, else the plain two-decimal value;
the sign marker always leads. -/
def formatMoney (amount : ℚ) : String :=
  if 100000000 ≤ |amount| then signStr amount ++ "¥" ++ fmt2 (|amount| / 100000000) ++ "亿"
  else if 100000 ≤ |amount| then signStr amount ++ "¥" ++ fmt2 (|amount| / 10000) ++ "万"
  else signStr amount ++ "¥" ++ fmt2 |amount|

/-- Store-assigned auto-increment id (db.rs: `INTEGER PRIMARY KEY
AUTOINCREMENT`). -/
def nextId (store : List RecordQ) : Int :=
  (store.map RecordQ.id).foldr max 0 + 1

/-- `App::add_record` seen together with the store: the insert happens only
on the `added` path (main.rs line 340), after every early return. -/
def appAddRecord (boss income duration game : String) (settled : Bool) (date : String)
    (store : List RecordQ) : List RecordQ × AddResult :=
  match validateAdd boss income duration game settled date with
  | .added r => (store ++ [{ r with id := nextId store }], .added r)
  | .rejected be ie m => (store, .rejected be ie m)

/-! ### Store reads and their failure behaviour (db.rs 100-146) -/

/-- An I/O failure reported by the storage engine. -/
inductive DbErr
  | ioErr
deriving DecidableEq, Repr

/-- `Database::get_total_balance` (db.rs 112-120): the result of the sum
query with `.unwrap_or(0.0)` — an error degrades to zero. -/
def getTotalBalance (queryRow : Except DbErr ℚ) : ℚ :=
  match queryRow with
  | .ok v => v
  | .error _ => 0

/-- `Database::get_boss_balance` (db.rs 101-109): same `unwrap_or(0.0)`
shape for the per-counterparty sum. -/
def getBossBalance (queryRow : Except DbErr ℚ) : ℚ :=
  match queryRow with
  | .ok v => v
  | .error _ => 0

/-- The `list_all` read as the app consumes it:
`db.get_all_records().unwrap_or_default()` (main.rs lines 198 and 262) —
a failed read degrades to the empty list. -/
def snapshotRecords (query : Except DbErr (List RecordQ)) : List RecordQ :=
  match query with
  | .ok rs => rs
  | .error _ => []

/-- `Database::get_all_bosses` (db.rs 123-133): `prepare(...).unwrap()`
and `query_map(...).unwrap()` panic on failure — modelled as `none`;
per-row errors are dropped by `filter_map(|r| r.ok())`. -/
def getAllBosses (query : Except DbErr (List (Except DbErr String))) : Option (List String) :=
  match query with
  | .error _ => none
  | .ok rows => some (rows.filterMap Except.toOption)

/-- `Database::get_all_games` (db.rs 136-146): identical `unwrap` shape. -/
def getAllGames (query : Except DbErr (List (Except DbErr String))) : Option (List String) :=
  match query with
  | .error _ => none
  | .ok rows => some (rows.filterMap Except.toOption)

/-- `SELECT DISTINCT boss FROM records ORDER BY boss` (db.rs line 125)
over a store state: the distinct values of the `boss` column in ascending
order. The query has no empty-string filter. -/
def distinctBossList (rs : List RecordQ) : List String :=
  ((rs.map RecordQ.boss).dedup).insertionSort (· ≤ ·)

/-- `SELECT DISTINCT game FROM records WHERE game IS NOT NULL AND game !=
'' ORDER BY game` (db.rs line 138): NULLs and empty strings are
excluded. -/
def distinctGameList (rs : List RecordQ) : List String :=
  (((rs.filterMap RecordQ.game).filter (fun g => g != "")).dedup).insertionSort (· ≤ ·)

/-! ### Schema migration: `Database::init` (db.rs 38-59)

The logical schema a `records.db` file can be in: whether the base table
exists and which of the three additive columns it has. The DDL semantics
(`CREATE TABLE IF NOT EXISTS`, `ALTER TABLE ... ADD COLUMN` failing on a
duplicate column) follow the storage engine's documented behaviour. -/

structure Schema where
  base : Bool
  hasDuration : Bool
  hasGame : Bool
  hasSettled : Bool
deriving DecidableEq, Repr

/-- `CREATE TABLE IF NOT EXISTS records (...)` (db.rs 39-48): creates the
base schema only when absent. -/
def createBaseTable (s : Schema) : Schema :=
  if s.base then s else ⟨true, false, false, false⟩

/-- `ALTER TABLE records ADD COLUMN duration INTEGER` (db.rs line 52). -/
def alterAddDuration (s : Schema) : Except String Schema :=
  if !s.base then .error "no such table: records"
  else if s.hasDuration then .error "duplicate column name: duration"
  else .ok { s with hasDuration := true }

/-- `ALTER TABLE records ADD COLUMN game TEXT` (db.rs line 54). -/
def alterAddGame (s : Schema) : Except String Schema :=
  if !s.base then .error "no such table: records"
  else if s.hasGame then .error "duplicate column name: game"
  else .ok { s with hasGame := true }

/-- `ALTER TABLE records ADD COLUMN settled INTEGER DEFAULT 0` (db.rs
line 56). -/
def alterAddSettled (s : Schema) : Except String Schema :=
  if !s.base then .error "no such table: records"
  else if s.hasSettled then .error "duplicate column name: settled"
  else .ok { s with hasSettled := true }

/-- The `let _ = self.conn.execute(...)` pattern (db.rs 52-56): a failed
migration statement is swallowed and the schema is left as it was. -/
def swallow (s : Schema) (r : Except String Schema) : Schema :=
  match r with
  | .ok s2 => s2
  | .error _ => s

/-- `Database::init` (db.rs 38-59): create the base table if absent, then
attempt the three additive migrations independently, swallowing each
failure. -/
def dbInit (s : Schema) : Schema :=
  let s1 := createBaseTable s
  let s2 := swallow s1 (alterAddDuration s1)
  let s3 := swallow s2 (alterAddGame s2)
  swallow s3 (alterAddSettled s3)

/-! ### Session timer (main.rs 189-192, 470-490, 517-603) -/

/-- The timer fields of `App` (main.rs 189-192): `timer_running`,
`timer_start_instant`, `timer_accumulated`, `timer_ended`. Instants and
durations are seconds as `Nat`. -/
structure TimerState where
  running : Bool
  startInstant : Option Nat
  accumulated : Nat
  ended : Bool
deriving DecidableEq, Repr

/-- `is_initial` (main.rs line 487). -/
def isInitial (s : TimerState) : Bool :=
  !s.running && s.accumulated == 0 && !s.ended

/-- `is_running` (main.rs line 488). -/
def isRunning (s : TimerState) : Bool :=
  s.running

/-- `is_paused` (main.rs line 489). -/
def isPaused (s : TimerState) : Bool :=
  !s.running && !(s.accumulated == 0) && !s.ended

/-- `is_ended` (main.rs line 490). -/
def isEnded (s : TimerState) : Bool :=
  s.ended

/-- `if let Some(start) = timer_start_instant { accumulated +=
start.elapsed() }` (main.rs 541-543 and 572-574). -/
def foldElapsed (now : Nat) (s : TimerState) : Nat :=
  match s.startInstant with
  | some start => s.accumulated + (now - start)
  | none => s.accumulated

/-- The elapsed-time derivation of main.rs lines 470-478. -/
def elapsedAt (now : Nat) (s : TimerState) : Nat :=
  if s.running then foldElapsed now s else s.accumulated

/-- Start button (main.rs 517-525): enabled only in the derived Initial
state; otherwise the click is impossible, a no-op. -/
def startT (now : Nat) (s : TimerState) : TimerState :=
  if isInitial s then { s with running := true, startInstant := some now, ended := false }
  else s

/-- Pause button (main.rs 536-546): enabled only while running. -/
def pauseT (now : Nat) (s : TimerState) : TimerState :=
  if isRunning s then
    { s with running := false, startInstant := none, accumulated := foldElapsed now s }
  else s

/-- Resume button (main.rs 547-554): enabled only while paused. -/
def resumeT (now : Nat) (s : TimerState) : TimerState :=
  if isPaused s then { s with running := true, startInstant := some now }
  else s

/-- Stop button (main.rs 565-578): enabled while running or paused. -/
def stopT (now : Nat) (s : TimerState) : TimerState :=
  if isRunning s || isPaused s then
    { s with running := false, startInstant := none, ended := true,
             accumulated := foldElapsed now s }
  else s

/-- Reset button (main.rs 590-597): enabled only once ended. -/
def resetT (s : TimerState) : TimerState :=
  if isEnded s then { s with accumulated := 0, ended := false }
  else s

/-- The timer's initial state (main.rs 232-235). -/
def timerInit : TimerState :=
  ⟨false, none, 0, false⟩

end Jz

namespace Jz

/-! ### Theorems -/

theorem runningBalancesAux_eq (rs : List RecordQ) :
    ∀ c : ℚ, runningBalancesAux rs c =
      (List.range rs.length).map (fun i => c - ((rs.take i).map RecordQ.income).sum) := by
  induction rs with
  | nil => intro c; rfl
  | cons r rest ih =>
    intro c
    simp only [runningBalancesAux, List.length_cons, List.range_succ_eq_map,
      List.map_cons, List.map_map]
    refine congrArg₂ _ (by simp) ?_
    rw [ih (c - r.income)]
    refine List.map_congr_left ?_
    intro i _
    simp [List.take_cons, List.sum_cons]
    ring

theorem runningBalances_eq_suffixSums (rs : List RecordQ) :
    runningBalances rs = suffixSums rs := by
  rw [runningBalances, runningBalancesAux_eq, suffixSums]
  refine List.map_congr_left ?_
  intro i hi
  rw [List.mem_range] at hi
  have hsplit : (rs.map RecordQ.income).sum =
      ((rs.take i).map RecordQ.income).sum + ((rs.drop i).map RecordQ.income).sum := by
    conv_lhs => rw [← List.take_append_drop i rs]
    rw [List.map_append, List.sum_append]
  rw [hsplit]
  ring

/-- C1: for every list of records in canonical order, the running-balance
sequence computed by the code is the suffix-sum sequence (index `i` holds
that record's amount plus all amounts at larger indices); the first entry
of a nonempty list is the period total; and the canonical-order amounts
[30, 20, 10] yield [60, 30, 10]. -/
theorem c1_running_balance_suffix_sum :
    (∀ rs : List RecordQ, runningBalances rs = suffixSums rs)
    ∧ (∀ (r : RecordQ) (rs : List RecordQ),
        (runningBalances (r :: rs)).head? = some (((r :: rs).map RecordQ.income).sum))
    ∧ runningBalances [recA, recB, recC] = [60, 30, 10] := by
  refine ⟨runningBalances_eq_suffixSums, ?_, ?_⟩
  · intro r rs
    rfl
  · simp only [runningBalances, runningBalancesAux, recA, recB, recC, List.map_cons,
      List.map_nil, List.sum_cons, List.sum_nil]
    norm_num

theorem incomeInvalidOf_eq_true (income : String)
    (h : parseDecimal (rustTrim income) = none
      ∨ ∃ v, parseDecimal (rustTrim income) = some v ∧ v ≤ 0) :
    incomeInvalidOf income = true := by
  rcases h with h | ⟨v, hv, hle⟩
  · rw [incomeInvalidOf, h]
  · rw [incomeInvalidOf, hv]
    exact decide_eq_true hle

theorem incomeInvalidOf_eq_false (income : String) (v : ℚ)
    (hv : parseDecimal (rustTrim income) = some v) (hpos : 0 < v) :
    incomeInvalidOf income = false := by
  rw [incomeInvalidOf, hv]
  exact decide_eq_false (not_le.mpr hpos)

/-- C2: the validation pipeline checks both required fields before the
first early return and accumulates both flags; boss and income both
missing gives the both-missing message with both flags; boss present with
an unparsable or non-positive income gives the amount-invalid message
with only the amount flag; boss present with a parsed income over the
100,000 ceiling gives the distinct over-ceiling message with the same
amount flag; an income of exactly 100,000 is accepted. -/
theorem c2_validation_pipeline :
    (∀ boss income d g s dt, rustTrim boss = "" → rustTrim income = "" →
      validateAdd boss income d g s dt = .rejected true true msgBothMissing)
    ∧ (∀ boss income d g s dt, rustTrim boss ≠ "" →
        (parseDecimal (rustTrim income) = none
          ∨ ∃ v, parseDecimal (rustTrim income) = some v ∧ v ≤ 0) →
        validateAdd boss income d g s dt = .rejected false true msgAmountInvalid)
    ∧ (∀ boss income d g s dt v, rustTrim boss ≠ "" →
        parseDecimal (rustTrim income) = some v → 100000 < v →
        validateAdd boss income d g s dt = .rejected false true msgOverCeiling)
    ∧ validateAdd "Alice" "100000" "" "" false "2024-01-01" =
        .added ⟨0, "2024-01-01", "Alice", 100000, none, none, false⟩ := by
  refine ⟨?_, ?_, ?_, ?_⟩
  · intro boss income d g s dt hb hi
    have h1 : bossEmptyOf boss = true := by simp [bossEmptyOf, hb]
    have h2 : incomeInvalidOf income = true := by
      rw [incomeInvalidOf, hi, show parseDecimal "" = none from rfl]
    simp [validateAdd, h1, h2]
  · intro boss income d g s dt hb hbad
    have h1 : bossEmptyOf boss = false := by simp [bossEmptyOf, hb]
    have h2 := incomeInvalidOf_eq_true income hbad
    simp [validateAdd, h1, h2]
  · intro boss income d g s dt v hb hv hceil
    have hpos : 0 < v := lt_trans (by norm_num) hceil
    have h1 : bossEmptyOf boss = false := by simp [bossEmptyOf, hb]
    have h2 := incomeInvalidOf_eq_false income v hv hpos
    simp [validateAdd, h1, h2, hv, hceil]
  · simp [validateAdd, bossEmptyOf, incomeInvalidOf, parseDuration, parseDecimal,
      digitsToNat, rustTrim]

/-- Witness for C2 at the spec's three rejection examples. -/
theorem c2_validation_pipeline_witness :
    validateAdd "" "" "" "" false "2024-01-01" = .rejected true true msgBothMissing
    ∧ validateAdd "Alice" "abc" "" "" false "2024-01-01" = .rejected false true msgAmountInvalid
    ∧ validateAdd "Alice" "200000" "" "" false "2024-01-01" = .rejected false true msgOverCeiling := by
  refine ⟨?_, ?_, ?_⟩
  · exact c2_validation_pipeline.1 "" "" "" "" false "2024-01-01" (by decide) (by decide)
  · exact c2_validation_pipeline.2.1 "Alice" "abc" "" "" false "2024-01-01" (by decide)
      (Or.inl (by decide))
  · exact c2_validation_pipeline.2.2.1 "Alice" "200000" "" "" false "2024-01-01" 200000
      (by decide) (by simp [rustTrim, parseDecimal, digitsToNat]) (by norm_num)

theorem validateAdd_added_inv (b i d g : String) (s : Bool) (dt : String) (r : RecordQ)
    (h : validateAdd b i d g s dt = .added r) :
    bossEmptyOf b = false ∧ incomeInvalidOf i = false
    ∧ (parseDecimal (rustTrim i)).getD 0 ≤ 100000
    ∧ ∃ o, parseDuration d = .ok o := by
  unfold validateAdd at h
  split at h
  · exact absurd h (by simp)
  · next h1 =>
    rw [Bool.or_eq_true, not_or] at h1
    split at h
    · exact absurd h (by simp)
    · next h2 =>
      refine ⟨by simpa using h1.1, by simpa using h1.2, not_lt.mp h2, ?_⟩
      split at h
      · exact absurd h (by simp)
      · next o heq => exact ⟨o, heq⟩

/-- C6: every input on which validation fails — empty counterparty,
unparsable or non-positive or over-ceiling amount, or an invalid
non-blank duration — leaves the store untouched: the add call returns the
store unchanged with a rejection, and the insert path is never taken. -/
theorem c6_rejected_no_store_interaction :
    ∀ b i d g s dt store,
    (rustTrim b = ""
      ∨ (parseDecimal (rustTrim i) = none ∨ ∃ v, parseDecimal (rustTrim i) = some v ∧ v ≤ 0)
      ∨ (∃ v, parseDecimal (rustTrim i) = some v ∧ 100000 < v)
      ∨ (rustTrim d ≠ ""
          ∧ (parseDecimal (rustTrim d) = none
            ∨ ∃ w, parseDecimal (rustTrim d) = some w ∧ w ≤ 0))) →
    (appAddRecord b i d g s dt store).1 = store
    ∧ ∃ be ie m, (appAddRecord b i d g s dt store).2 = .rejected be ie m := by
  intro b i d g s dt store hfail
  cases hval : validateAdd b i d g s dt with
  | rejected be ie m =>
    constructor
    · simp [appAddRecord, hval]
    · exact ⟨be, ie, m, by simp [appAddRecord, hval]⟩
  | added r =>
    exfalso
    obtain ⟨hboss, hinc, hceil, o, hdur⟩ := validateAdd_added_inv b i d g s dt r hval
    rcases hfail with hb | hbad | ⟨v, hv, hv'⟩ | ⟨hd, hbadDur⟩
    · rw [bossEmptyOf] at hboss
      simp [hb] at hboss
    · rw [incomeInvalidOf_eq_true i hbad] at hinc
      exact Bool.true_eq_false.mp hinc
    · rw [hv] at hceil
      exact absurd hv' (not_lt.mpr hceil)
    · have : parseDuration d = .error msgDurationInvalid := by
        rcases hbadDur with hn | ⟨w, hw, hwle⟩
        · simp [parseDuration, hd, hn]
        · simp [parseDuration, hd, hw, not_lt.mpr hwle]
      rw [this] at hdur
      exact Except.noConfusion hdur

/-- Witness for C6: the three spec rejection examples and a bad duration,
each leaving a one-record store unchanged. -/
theorem c6_rejected_no_store_interaction_witness :
    (appAddRecord "" "" "" "" false "2024-01-01" [recA]).1 = [recA]
    ∧ (appAddRecord "Alice" "abc" "" "" false "2024-01-01" [recA]).1 = [recA]
    ∧ (appAddRecord "Alice" "50" "xyz" "" false "2024-01-01" [recA]).1 = [recA] := by
  refine ⟨?_, ?_, ?_⟩
  · exact (c6_rejected_no_store_interaction "" "" "" "" false "2024-01-01" [recA]
      (Or.inl (by decide))).1
  · exact (c6_rejected_no_store_interaction "Alice" "abc" "" "" false "2024-01-01" [recA]
      (Or.inr (Or.inl (Or.inl (by decide))))).1
  · exact (c6_rejected_no_store_interaction "Alice" "50" "xyz" "" false "2024-01-01" [recA]
      (Or.inr (Or.inr (Or.inr ⟨by decide, Or.inl (by decide)⟩)))).1

/-- C7: a blank duration normalizes to absent (never zero); a non-blank
duration that fails to parse or is non-positive rejects the whole
submission with the duration message; an accepted value is rounded to one
decimal place as `round(v * 10) / 10`; and with otherwise valid inputs a
bad duration makes `add_record` reject without setting either field
flag. -/
theorem c7_duration_rules :
    (∀ d, rustTrim d = "" → parseDuration d = .ok none)
    ∧ (∀ d, rustTrim d ≠ "" →
        (parseDecimal (rustTrim d) = none ∨ ∃ v, parseDecimal (rustTrim d) = some v ∧ v ≤ 0) →
        parseDuration d = .error msgDurationInvalid)
    ∧ (∀ d v, rustTrim d ≠ "" → parseDecimal (rustTrim d) = some v → 0 < v →
        parseDuration d = .ok (some (((round (v * 10) : Int) : ℚ) / 10)))
    ∧ (∀ b i d g s dt, bossEmptyOf b = false → incomeInvalidOf i = false →
        (parseDecimal (rustTrim i)).getD 0 ≤ 100000 →
        parseDuration d = .error msgDurationInvalid →
        validateAdd b i d g s dt = .rejected false false msgDurationInvalid) := by
  refine ⟨?_, ?_, ?_, ?_⟩
  · intro d hd
    simp [parseDuration, hd]
  · intro d hd hbad
    rcases hbad with hn | ⟨v, hv, hle⟩
    · simp [parseDuration, hd, hn]
    · simp [parseDuration, hd, hv, not_lt.mpr hle]
  · intro d v hd hv hpos
    simp [parseDuration, hd, hv, hpos, round1]
  · intro b i d g s dt hb hi hceil hdur
    simp [validateAdd, hb, hi, not_lt.mpr hceil, hdur]

/-- Witness for C7 at concrete durations: blank, over-rounded 2.15, and an
unparsable duration rejecting an otherwise valid submission. -/
theorem c7_duration_rules_witness :
    parseDuration "  " = .ok none
    ∧ parseDuration "2.15" = .ok (some (((round ((2.15 : ℚ) * 10) : Int) : ℚ) / 10))
    ∧ validateAdd "Alice" "50" "xyz" "" false "2024-01-01" =
        .rejected false false msgDurationInvalid := by
  refine ⟨?_, ?_, ?_⟩
  · exact c7_duration_rules.1 "  " (by decide)
  · have := c7_duration_rules.2.2.1 "2.15" (2.15 : ℚ) (by decide)
      (by simp [rustTrim, parseDecimal, digitsToNat]; norm_num) (by norm_num)
    simpa using this
  · exact c7_duration_rules.2.2.2 "Alice" "50" "xyz" "" false "2024-01-01"
      (by decide)
      (by
        rw [incomeInvalidOf, show rustTrim "50" = "50" from by decide]
        simp [parseDecimal, digitsToNat])
      (by
        rw [show rustTrim "50" = "50" from by decide]
        have h : parseDecimal "50" = some 50 := by simp [parseDecimal, digitsToNat]
        rw [h]
        norm_num)
      (by simp [parseDuration, rustTrim, parseDecimal])

/-- C4: `format_money` renders `|amount| < 100,000` as the two-decimal
value with the currency marker, `100,000 ≤ |amount| < 100,000,000` as the
amount over 10,000 with the ten-thousand suffix, `|amount| ≥ 100,000,000`
as the amount over 100,000,000 with the hundred-million suffix; negative
amounts get a leading sign marker; thresholds are inclusive below; and
the four spec examples render as stated. -/
theorem c4_format_money :
    (∀ a : ℚ, |a| < 100000 → formatMoney a = signStr a ++ "¥" ++ fmt2 |a|)
    ∧ (∀ a : ℚ, 100000 ≤ |a| → |a| < 100000000 →
        formatMoney a = signStr a ++ "¥" ++ fmt2 (|a| / 10000) ++ "万")
    ∧ (∀ a : ℚ, 100000000 ≤ |a| →
        formatMoney a = signStr a ++ "¥" ++ fmt2 (|a| / 100000000) ++ "亿")
    ∧ (∀ a : ℚ, a < 0 → signStr a = "-")
    ∧ formatMoney (2469/2) = "¥1234.50"
    ∧ formatMoney 150000 = "¥15.00万"
    ∧ formatMoney 150000000 = "¥1.50亿"
    ∧ formatMoney (-500) = "-¥500.00" := by
  refine ⟨?_, ?_, ?_, ?_, ?_, ?_, ?_, ?_⟩
  · intro a h
    rw [formatMoney, if_neg (not_le.mpr (lt_trans h (by norm_num))), if_neg (not_le.mpr h)]
  · intro a h1 h2
    rw [formatMoney, if_neg (not_le.mpr h2), if_pos h1]
  · intro a h
    rw [formatMoney, if_pos h]
  · intro a h
    rw [signStr, if_pos h]
  · have h : round ((2469/2 : ℚ) * 100) = 123450 := by rw [round_eq]; norm_num
    rw [formatMoney, if_neg (by rw [abs_of_pos (by norm_num)]; norm_num),
      if_neg (by rw [abs_of_pos (by norm_num)]; norm_num)]
    rw [signStr, if_neg (by norm_num), fmt2, abs_of_pos (by norm_num : (0:ℚ) < 2469/2), h]
    rfl
  · have h : round (((150000 : ℚ)) / 10000 * 100) = 1500 := by rw [round_eq]; norm_num
    rw [formatMoney, if_neg (by rw [abs_of_pos (by norm_num)]; norm_num),
      if_pos (by rw [abs_of_pos (by norm_num)]; norm_num)]
    rw [signStr, if_neg (by norm_num), fmt2, abs_of_pos (by norm_num : (0:ℚ) < 150000), h]
    rfl
  · have h : round (((150000000 : ℚ)) / 100000000 * 100) = 150 := by rw [round_eq]; norm_num
    rw [formatMoney, if_pos (by rw [abs_of_pos (by norm_num)]; norm_num)]
    rw [signStr, if_neg (by norm_num), fmt2, abs_of_pos (by norm_num : (0:ℚ) < 150000000), h]
    rfl
  · have h : round ((|(-500 : ℚ)|) * 100) = 50000 := by
      rw [abs_of_neg (by norm_num : (-500:ℚ) < 0), round_eq]; norm_num
    rw [formatMoney, if_neg (by rw [abs_of_neg (by norm_num : (-500:ℚ) < 0)]; norm_num),
      if_neg (by rw [abs_of_neg (by norm_num : (-500:ℚ) < 0)]; norm_num)]
    rw [signStr, if_pos (by norm_num), fmt2, h]
    rfl

/-- Witness for C4 at one point per threshold band and for the sign
marker. -/
theorem c4_format_money_witness :
    (|(-500 : ℚ)| < 100000 ∧ formatMoney (-500) = signStr (-500) ++ "¥" ++ fmt2 |(-500 : ℚ)|)
    ∧ (100000 ≤ |(150000 : ℚ)| ∧ |(150000 : ℚ)| < 100000000
        ∧ formatMoney 150000 = signStr 150000 ++ "¥" ++ fmt2 ((|(150000 : ℚ)|) / 10000) ++ "万")
    ∧ (100000000 ≤ |(150000000 : ℚ)|
        ∧ formatMoney 150000000 =
            signStr 150000000 ++ "¥" ++ fmt2 ((|(150000000 : ℚ)|) / 100000000) ++ "亿")
    ∧ signStr (-1) = "-" := by
  refine ⟨⟨by norm_num, ?_⟩, ⟨by norm_num, by norm_num, ?_⟩, ⟨by norm_num, ?_⟩, ?_⟩
  · exact c4_format_money.1 (-500) (by norm_num)
  · exact c4_format_money.2.1 150000 (by norm_num) (by norm_num)
  · exact c4_format_money.2.2.1 150000000 (by norm_num)
  · exact c4_format_money.2.2.2.1 (-1) (by norm_num)

/-- C5 (amended): `list_all` and the two sums degrade an I/O failure to an
empty list or zero; `distinct_values` drops individual failed rows, but a
failed statement prepare or query is `unwrap`ped — a panic, modelled as
`none` — rather than degrading. -/
theorem c5_read_degradation :
    (∀ e : DbErr, getTotalBalance (.error e) = 0)
    ∧ (∀ e : DbErr, getBossBalance (.error e) = 0)
    ∧ (∀ e : DbErr, snapshotRecords (.error e) = [])
    ∧ (∀ e : DbErr, getAllBosses (.error e) = none)
    ∧ (∀ e : DbErr, getAllGames (.error e) = none)
    ∧ (∀ rows, getAllBosses (.ok rows) = some (rows.filterMap Except.toOption)) :=
  ⟨fun _ => rfl, fun _ => rfl, fun _ => rfl, fun _ => rfl, fun _ => rfl, fun _ => rfl⟩

/-- C5 counterexample: an I/O failure on the distinct-values reads does
not produce an empty list — `prepare(...).unwrap()` panics, so the read
crashes (no result at all). -/
theorem c5_counterexample :
    getAllBosses (Except.error DbErr.ioErr) = none
    ∧ getAllGames (Except.error DbErr.ioErr) = none :=
  ⟨rfl, rfl⟩

/-- C8: `initialize()` is idempotent — it creates the base schema only if
absent, runs every additive migration with failures swallowed, always
lands on the full schema, and on a second run each `ALTER TABLE` fails
with a duplicate-column error that is swallowed, leaving the schema
identical. -/
theorem c8_init_idempotent :
    (∀ s : Schema, dbInit (dbInit s) = dbInit s)
    ∧ (∀ s : Schema, dbInit s = ⟨true, true, true, true⟩)
    ∧ (∀ s : Schema,
        alterAddDuration (dbInit s) = .error "duplicate column name: duration"
        ∧ alterAddGame (dbInit s) = .error "duplicate column name: game"
        ∧ alterAddSettled (dbInit s) = .error "duplicate column name: settled") := by
  have hall : ∀ s : Schema, dbInit s = ⟨true, true, true, true⟩ := by
    rintro ⟨b, d, g, t⟩
    cases b <;> cases d <;> cases g <;> cases t <;> rfl
  refine ⟨fun s => by rw [hall, hall], hall, fun s => by rw [hall s]; exact ⟨rfl, rfl, rfl⟩⟩

/-- C9 (amended): both distinct-value reads return a sorted list of
distinct column values; the activity-tag read filters out NULL and empty
strings, but the counterparty read applies no empty-string filter. -/
theorem c9_distinct_values :
    (∀ rs : List RecordQ,
      (distinctBossList rs).Sorted (· ≤ ·)
      ∧ (distinctBossList rs).Nodup
      ∧ (∀ x, x ∈ distinctBossList rs ↔ x ∈ rs.map RecordQ.boss))
    ∧ (∀ rs : List RecordQ,
      (distinctGameList rs).Sorted (· ≤ ·)
      ∧ (distinctGameList rs).Nodup
      ∧ (∀ x, x ∈ distinctGameList rs ↔ x ∈ rs.filterMap RecordQ.game ∧ x ≠ "")
      ∧ "" ∉ distinctGameList rs) := by
  refine ⟨fun rs => ⟨List.sorted_insertionSort _ _,
      (List.perm_insertionSort _ _).nodup_iff.mpr (List.nodup_dedup _),
      fun x => ((List.perm_insertionSort _ _).mem_iff).trans List.mem_dedup⟩,
    fun rs => ⟨List.sorted_insertionSort _ _,
      (List.perm_insertionSort _ _).nodup_iff.mpr (List.nodup_dedup _), ?_, ?_⟩⟩
  · intro x
    rw [distinctGameList, (List.perm_insertionSort _ _).mem_iff, List.mem_dedup,
      List.mem_filter]
    simp
  · intro hmem
    rw [distinctGameList, (List.perm_insertionSort _ _).mem_iff, List.mem_dedup,
      List.mem_filter] at hmem
    simp at hmem

/-- Witness for C9 at concrete one-record stores. -/
theorem c9_distinct_values_witness :
    "" ∉ distinctGameList [recEmptyBoss]
    ∧ ("A" ∈ distinctBossList [recA] ↔ "A" ∈ [recA].map RecordQ.boss) :=
  ⟨(c9_distinct_values.2 [recEmptyBoss]).2.2.2, (c9_distinct_values.1 [recA]).2.2 "A"⟩

/-- C9 counterexample: a store whose single record has an empty
counterparty makes the counterparty distinct-values list contain the
empty string — the boss query has no empty-string filter. -/
theorem c9_counterexample : "" ∈ distinctBossList [recEmptyBoss] := by
  decide

/-- C3: every session-timer transition behaves as specified — start from
Initial records the instant; pause from Running folds `now - start` into
`accumulated` and clears the instant; resume from Paused sets a fresh
instant with `accumulated` unchanged; stop folds remaining elapsed from
Running and changes nothing but the ended flag from Paused; reset from
Ended clears `accumulated`; every transition from a state where it is not
enabled is a no-op; `elapsed()` while Running is `accumulated + (now -
start)`; and the spec's 5s-pause-resume-3s scenario yields 8s in Ended,
then 0 in Initial after reset, with pause a no-op in Initial. -/
theorem c3_session_timer :
    (∀ now, ∀ s : TimerState, isInitial s = true →
      startT now s = { s with running := true, startInstant := some now, ended := false })
    ∧ (∀ now t, ∀ s : TimerState, isRunning s = true → s.startInstant = some t →
      pauseT now s = ⟨false, none, s.accumulated + (now - t), s.ended⟩)
    ∧ (∀ now, ∀ s : TimerState, isPaused s = true →
      (resumeT now s).accumulated = s.accumulated ∧ (resumeT now s).startInstant = some now
        ∧ (resumeT now s).running = true)
    ∧ (∀ now t, ∀ s : TimerState, isRunning s = true → s.startInstant = some t →
      stopT now s = ⟨false, none, s.accumulated + (now - t), true⟩)
    ∧ (∀ now, ∀ s : TimerState, isPaused s = true → s.startInstant = none →
      (stopT now s).accumulated = s.accumulated ∧ (stopT now s).ended = true)
    ∧ (∀ s : TimerState, isEnded s = true →
      (resetT s).accumulated = 0 ∧ (resetT s).ended = false)
    ∧ (∀ now, ∀ s : TimerState, isInitial s = false → startT now s = s)
    ∧ (∀ now, ∀ s : TimerState, isRunning s = false → pauseT now s = s)
    ∧ (∀ now, ∀ s : TimerState, isPaused s = false → resumeT now s = s)
    ∧ (∀ now, ∀ s : TimerState, (isRunning s || isPaused s) = false → stopT now s = s)
    ∧ (∀ s : TimerState, isEnded s = false → resetT s = s)
    ∧ (∀ now t, ∀ s : TimerState, isRunning s = true → s.startInstant = some t →
      elapsedAt now s = s.accumulated + (now - t))
    ∧ (elapsedAt 8 (stopT 8 (resumeT 5 (pauseT 5 (startT 0 timerInit)))) = 8
        ∧ isEnded (stopT 8 (resumeT 5 (pauseT 5 (startT 0 timerInit)))) = true
        ∧ elapsedAt 8 (resetT (stopT 8 (resumeT 5 (pauseT 5 (startT 0 timerInit))))) = 0
        ∧ isInitial (resetT (stopT 8 (resumeT 5 (pauseT 5 (startT 0 timerInit))))) = true
        ∧ pauseT 3 timerInit = timerInit) := by
  refine ⟨?_, ?_, ?_, ?_, ?_, ?_, ?_, ?_, ?_, ?_, ?_, ?_, by decide⟩
  · intro now s h
    simp [startT, h]
  · intro now t s h hi
    simp only [isRunning] at h
    simp [pauseT, isRunning, h, foldElapsed, hi]
  · intro now s h
    simp [resumeT, h]
  · intro now t s h hi
    simp only [isRunning] at h
    simp [stopT, isRunning, h, foldElapsed, hi]
  · intro now s h hi
    simp [stopT, h, foldElapsed, hi]
  · intro s h
    simp [resetT, h]
  · intro now s h
    simp [startT, h]
  · intro now s h
    simp only [isRunning] at h
    simp [pauseT, isRunning, h]
  · intro now s h
    simp [resumeT, h]
  · intro now s h
    simp [stopT, h]
  · intro s h
    simp [resetT, h]
  · intro now t s h hi
    simp only [isRunning] at h
    simp [elapsedAt, h, foldElapsed, hi]

/-- Witness for C3: one concrete instantiation per hypothesized
transition rule. -/
theorem c3_session_timer_witness :
    startT 0 timerInit = { timerInit with running := true, startInstant := some 0, ended := false }
    ∧ pauseT 5 ⟨true, some 0, 0, false⟩ = ⟨false, none, 0 + (5 - 0), false⟩
    ∧ ((resumeT 5 ⟨false, none, 5, false⟩).accumulated = 5
        ∧ (resumeT 5 ⟨false, none, 5, false⟩).startInstant = some 5
        ∧ (resumeT 5 ⟨false, none, 5, false⟩).running = true)
    ∧ stopT 8 ⟨true, some 5, 5, false⟩ = ⟨false, none, 5 + (8 - 5), true⟩
    ∧ ((stopT 8 ⟨false, none, 8, false⟩).accumulated = 8
        ∧ (stopT 8 ⟨false, none, 8, false⟩).ended = true)
    ∧ ((resetT ⟨false, none, 8, true⟩).accumulated = 0
        ∧ (resetT ⟨false, none, 8, true⟩).ended = false)
    ∧ startT 1 ⟨true, some 0, 0, false⟩ = ⟨true, some 0, 0, false⟩
    ∧ pauseT 1 timerInit = timerInit
    ∧ resumeT 1 timerInit = timerInit
    ∧ stopT 1 timerInit = timerInit
    ∧ resetT timerInit = timerInit
    ∧ elapsedAt 7 ⟨true, some 2, 5, false⟩ = 5 + (7 - 2) :=
  ⟨c3_session_timer.1 0 timerInit rfl,
   c3_session_timer.2.1 5 0 ⟨true, some 0, 0, false⟩ rfl rfl,
   c3_session_timer.2.2.1 5 ⟨false, none, 5, false⟩ rfl,
   c3_session_timer.2.2.2.1 8 5 ⟨true, some 5, 5, false⟩ rfl rfl,
   c3_session_timer.2.2.2.2.1 8 ⟨false, none, 8, false⟩ rfl rfl,
   c3_session_timer.2.2.2.2.2.1 ⟨false, none, 8, true⟩ rfl,
   c3_session_timer.2.2.2.2.2.2.1 1 ⟨true, some 0, 0, false⟩ rfl,
   c3_session_timer.2.2.2.2.2.2.2.1 1 timerInit rfl,
   c3_session_timer.2.2.2.2.2.2.2.2.1 1 timerInit rfl,
   c3_session_timer.2.2.2.2.2.2.2.2.2.1 1 timerInit rfl,
   c3_session_timer.2.2.2.2.2.2.2.2.2.2.1 timerInit rfl,
   c3_session_timer.2.2.2.2.2.2.2.2.2.2.2.1 7 2 ⟨true, some 2, 5, false⟩ rfl rfl⟩

/-- C10 (amended): the four timer states are derived purely from the
triple (running, accumulated, ended) — the start instant plays no role —
with Paused exactly when not running, accumulated non-zero and not ended;
and a pause from Running with zero elapsed time and zero accumulated time
lands in the derived Initial state. -/
theorem c10_derived_timer_state :
    (∀ s s' : TimerState, s.running = s'.running → s.accumulated = s'.accumulated →
      s.ended = s'.ended →
      isInitial s = isInitial s' ∧ isRunning s = isRunning s'
        ∧ isPaused s = isPaused s' ∧ isEnded s = isEnded s')
    ∧ (∀ s : TimerState, isPaused s = true ↔
        s.running = false ∧ s.accumulated ≠ 0 ∧ s.ended = false)
    ∧ (∀ now t, ∀ s : TimerState, isRunning s = true → s.ended = false →
        s.startInstant = some t → now - t = 0 → s.accumulated = 0 →
        isInitial (pauseT now s) = true) := by
  refine ⟨?_, ?_, ?_⟩
  · intro s s' h1 h2 h3
    exact ⟨by simp [isInitial, h1, h2, h3], by simp [isRunning, h1],
      by simp [isPaused, h1, h2, h3], by simp [isEnded, h3]⟩
  · intro s
    simp [isPaused, and_assoc]
  · intro now t s h he hi hz ha
    simp only [isRunning] at h
    simp [pauseT, isRunning, h, foldElapsed, hi, isInitial, ha, hz, he]

/-- Witness for C10 at concrete states: the derivation ignores the start
instant, and a zero-elapsed zero-accumulated pause lands in Initial. -/
theorem c10_derived_timer_state_witness :
    (isInitial ⟨false, some 7, 0, false⟩ = isInitial ⟨false, none, 0, false⟩
      ∧ isRunning ⟨false, some 7, 0, false⟩ = isRunning ⟨false, none, 0, false⟩
      ∧ isPaused ⟨false, some 7, 0, false⟩ = isPaused ⟨false, none, 0, false⟩
      ∧ isEnded ⟨false, some 7, 0, false⟩ = isEnded ⟨false, none, 0, false⟩)
    ∧ isInitial (pauseT 5 ⟨true, some 5, 0, false⟩) = true :=
  ⟨c10_derived_timer_state.1 ⟨false, some 7, 0, false⟩ ⟨false, none, 0, false⟩ rfl rfl rfl,
   c10_derived_timer_state.2.2 5 5 ⟨true, some 5, 0, false⟩ rfl rfl rfl rfl rfl⟩

/-- C10 counterexample: a reachable pause from Running with zero elapsed
time since the start instant (start at 0, pause at 5, resume at 5, pause
again at 5) whose result is the derived Paused state, not Initial —
because the accumulated time is non-zero. -/
theorem c10_counterexample :
    isRunning (resumeT 5 (pauseT 5 (startT 0 timerInit))) = true
    ∧ (resumeT 5 (pauseT 5 (startT 0 timerInit))).startInstant = some 5
    ∧ isInitial (pauseT 5 (resumeT 5 (pauseT 5 (startT 0 timerInit)))) = false
    ∧ isPaused (pauseT 5 (resumeT 5 (pauseT 5 (startT 0 timerInit)))) = true := by
  decide

end Jz
